import Mathlib

/-!
Shallow embedding of the algorithmic core of
`src/content/_build/jupyter_execute/notebooks/Notebook_4/Notebook_4_sample_energy_calcs.py`
(stage-discharge rating curve, regional correlation, turbinable-flow clipping,
flow-duration-curve energy estimate, economics loop).

Python floats are modelled by exact rationals (`ℚ`); where the source computes
transcendental values (`np.exp`, `np.log`) only the branch/outcome structure is
embedded, since the claims under study concern that structure.  Line numbers in
the comments refer to the source file above.
-/

/-- Outcome of `ols_rc_q` (source lines 68-82) under numpy scalar semantics.
The source is

```
def ols_rc_q(slope, intercept, h, h0):
    if slope == 0:
        return 0
    try:
        return np.exp((np.log(h - h0) - intercept) / slope)
    except ValueError:
        return None
```

numpy library semantics used by the embedding: on a scalar float argument
`np.log` returns `nan` for a negative argument and `-inf` for zero, each with a
`RuntimeWarning`; it does not raise `ValueError` (that is the behaviour of
`math.log`, which the source does not call).  Consequently the
`except ValueError` handler can never fire, and the `try` body always returns:
`nan` propagates through the subtraction, division and `np.exp` when
`h - h0 < 0`, and when `h - h0 = 0` the `-inf` collapses under `np.exp` to the
float `0.0` or `inf` depending on the sign of `slope`.  The constructors below
record which of the five syntactic results the call produces. -/
inductive RCOutcome where
  /-- the literal `return 0` taken when `slope == 0` -/
  | intZero : RCOutcome
  /-- the `return None` of the `except ValueError` handler -/
  | noneVal : RCOutcome
  /-- `nan` propagated from `np.log` of a negative argument -/
  | nanVal : RCOutcome
  /-- `np.log(0.0) = -inf`, so `np.exp` yields the float `0.0` or `inf` -/
  | limitVal : RCOutcome
  /-- the ordinary finite value `exp((log(h - h0) - intercept) / slope)` -/
  | finiteVal : RCOutcome
  deriving DecidableEq

/-- `ols_rc_q` (source lines 68-82), embedded as its outcome classification;
see `RCOutcome` for the correspondence with the Python control flow.  The
`intercept` argument only shifts the finite value and does not influence which
outcome is taken, exactly as in the source. -/
def ols_rc_q (slope intercept h h0 : ℚ) : RCOutcome :=
  if slope = 0 then .intZero
  else if h - h0 < 0 then .nanVal
  else if h - h0 = 0 then .limitVal
  else .finiteVal

/-- `scipy.stats.linregress` on paired samples, restricted to the
(slope, intercept) components the notebook uses (source line 265):
`slope = (n*Σxy - Σx*Σy) / (n*Σxx - (Σx)²)`, `intercept = ȳ - slope*x̄`. -/
def linregress (pts : List (ℚ × ℚ)) : ℚ × ℚ :=
  let n : ℚ := pts.length
  let sx := (pts.map Prod.fst).sum
  let sy := (pts.map Prod.snd).sum
  let sxy := (pts.map fun p => p.1 * p.2).sum
  let sxx := (pts.map fun p => p.1 * p.1).sum
  let slope := (n * sxy - sx * sy) / (n * sxx - sx * sx)
  (slope, (sy - slope * sx) / n)

/-- Source line 283: `slope = 0.15`, the reassignment made in the regression
plot cell after `st.linregress` has run (line 265).  This binding is the one
still in scope at line 301. -/
def plot_slope : ℚ := 0.15

/-- Source line 282: `intercept = 0.2`, the reassignment made in the
regression plot cell.  This binding is the one still in scope at line 301. -/
def plot_intercept : ℚ := 0.2

/-- Source line 301:
`lt_series['Proj_Q'] = lt_series.apply(lambda q: slope * q + intercept, axis=1)`.
At this point `slope` and `intercept` are the plot-cell reassignments
`plot_slope` and `plot_intercept`, not the values returned by `linregress`. -/
def lt_proj_q (q : ℚ) : ℚ := plot_slope * q + plot_intercept

/-- The exact-linear concurrent record used to exercise the regression:
regional flows 1..4 paired with project flows 1.15..1.60. -/
def concurrent_example : List (ℚ × ℚ) := [(1, 1.15), (2, 1.30), (3, 1.45), (4, 1.60)]

/-- `calc_power` (source lines 403-406): power (kW) from head 100.4 m,
76 percent efficiency and g = 9.81. -/
def calc_power (q_in : ℚ) : ℚ := q_in * 100.4 * 0.76 * 9.81

/-- `calc_flow_exceedance` (source lines 408-415). -/
def calc_flow_exceedance (q qd ifr : ℚ) : ℚ :=
  if q < ifr then 0
  else if q < ifr + qd then q
  else qd

/-- `calc_energy_daily` (source lines 417-419): daily energy (kWh). -/
def calc_energy_daily (q_in : ℚ) : ℚ := calc_power q_in * 24

/-- `calc_daily_flow` (source lines 421-429): turbinable flow from inflow
`q_in`, design flow `q_design` and instream flow requirement `ifr`. -/
def calc_daily_flow (q_in q_design ifr : ℚ) : ℚ :=
  if q_in < ifr then 0
  else if q_in < ifr + q_design then q_in
  else q_design

/-- `np.percentile(data, p)` with the default linear interpolation: sort the
data ascending, place the virtual index `p/100 * (n-1)`, and interpolate
linearly between the two neighbouring order statistics. -/
def np_percentile (data : List ℚ) (p : ℚ) : ℚ :=
  let s := data.insertionSort (· ≤ ·)
  let n : ℚ := s.length
  let pos := p * (n - 1) / 100
  let i := (⌊pos⌋).toNat
  let lo := s.getD i 0
  let hi := s.getD (i + 1) lo
  lo + (pos - (⌊pos⌋ : ℚ)) * (hi - lo)

/-- `np.clip(q, a_min, a_max)` on a scalar: `min(a_max, max(a_min, q))`. -/
def np_clip (q a_min a_max : ℚ) : ℚ := min (max q a_min) a_max

/-- Source line 453: `percentiles = np.linspace(start, end, n_steps)` with
`start, end = 0, 100` and `n_steps = 100`, i.e. the 100 evenly spaced values
`100*i/99` for `i = 0..99`. -/
def fdc_percentiles : List ℚ := (List.range 100).map fun i : ℕ => 100 * (i : ℚ) / 99

/-- Source line 455: `q_vals = [np.percentile(data, p) for p in percentiles]`. -/
def fdc_q_vals (data : List ℚ) : List ℚ := fdc_percentiles.map (np_percentile data)

/-- Source line 458: `d_step = (end - start) / n_steps` with
`start, end, n_steps = 0, 100, 100`. -/
def fdc_d_step : ℚ := (100 - 0) / 100

/-- Source line 461:
`fdc_flow_filtered = [q for q in np.clip(q_vals, a_min=0, a_max=qd) if q > 0.9]`.
The comparison threshold in the source is the literal `0.9`; the `ifr`
parameter of `calc_area_under_fdc` does not occur in this expression, so the
embedded definition does not take it. -/
def fdc_flow_filtered (data : List ℚ) (qd : ℚ) : List ℚ :=
  ((fdc_q_vals data).map fun q => np_clip q 0 qd).filter fun q => (0.9 : ℚ) < q

/-- Source line 462:
`fdc_effective_flow = sum([q * d_step for q in fdc_flow_filtered]) / n_steps`
with `n_steps = 100`. -/
def fdc_effective_flow (data : List ℚ) (qd : ℚ) : ℚ :=
  ((fdc_flow_filtered data qd).map fun q => q * fdc_d_step).sum / 100

/-- Source line 463:
`fdc_energy = calc_power(fdc_effective_flow) * (8760 * (n_steps/100)) / 1E6`
with `n_steps = 100`. -/
def fdc_energy (data : List ℚ) (qd : ℚ) : ℚ :=
  calc_power (fdc_effective_flow data qd) * (8760 * ((100 : ℚ) / 100)) / 1000000

/-- Source line 465: `fdc_flow_estimate = sum(q_vals) / n_steps`. -/
def fdc_flow_estimate (data : List ℚ) : ℚ := (fdc_q_vals data).sum / 100

/-- `calc_area_under_fdc` (source lines 449-467), returning
`(fdc_flow_estimate, fdc_energy)`.  The `ifr` parameter is accepted, as in the
source, but no expression of the body reads it: the filter on line 461 uses
the literal threshold `0.9` (see `fdc_flow_filtered`). -/
def calc_area_under_fdc (data : List ℚ) (qd ifr : ℚ) : ℚ × ℚ :=
  (fdc_flow_estimate data, fdc_energy data qd)

/-- Source line 473 (inside the scenario loop):
`lt_series['q_turbine_...'] = [calc_daily_flow(q, qd, 0.9) for q in lt_series['Proj_Q']]`
followed by line 475 applying `calc_energy_daily`, and lines 497-500:
`ann_energy = lt_series['energy_...'].sum() / n_years / 1E6`.  The `ifr`
argument of `calc_daily_flow` is the literal `0.9` in the source. -/
def ann_energy (proj_q : List ℚ) (qd : ℚ) (n_years : ℕ) : ℚ :=
  (proj_q.map fun q => calc_energy_daily (calc_daily_flow q qd 0.9)).sum
    / (n_years : ℚ) / 1000000

/-- Source line 501: `ann_rev = ann_energy * 0.04`. -/
def ann_rev (proj_q : List ℚ) (qd : ℚ) (n_years : ℕ) : ℚ :=
  ann_energy proj_q qd n_years * 0.04

/-- Source line 488: `cost = unit_cap_cost * qd` (million dollars). -/
def calc_cost (unit_cap_cost qd : ℚ) : ℚ := unit_cap_cost * qd

/-- Source line 508: `payback = round(cost / ann_rev, 1)`, embedded without the
display rounding.  The division carries no guard against `ann_rev == 0`: over
Python floats `cost / 0.0` raises `ZeroDivisionError` and over numpy floats it
yields `inf` with a `RuntimeWarning`; the total division of `ℚ` used here
returns the junk value `0` at a zero divisor, standing in for that unguarded
operation. -/
def payback (cost rev : ℚ) : ℚ := cost / rev

/-- C10: the two clipping functions defined in the source compute the same
function: for every inflow `q`, design flow `qd` and instream flow requirement
`ifr`, `calc_flow_exceedance q qd ifr = calc_daily_flow q qd ifr`. -/
theorem calc_flow_exceedance_eq_calc_daily_flow (q qd ifr : ℚ) :
    calc_flow_exceedance q qd ifr = calc_daily_flow q qd ifr := rfl

/-- C7: `calc_daily_flow` returns `0` when `q < ifr`, returns `q` when
`ifr ≤ q < ifr + qd`, and returns `qd` otherwise; and with `ifr = 0.9`,
`qd = 4.0` the inflow series `[0.5, 1.0, 4.0, 6.0]` maps pointwise to
`[0, 1.0, 4.0, 4.0]`. -/
theorem calc_daily_flow_cases (q qd ifr : ℚ) :
    (q < ifr → calc_daily_flow q qd ifr = 0) ∧
    (ifr ≤ q → q < ifr + qd → calc_daily_flow q qd ifr = q) ∧
    (ifr ≤ q → ifr + qd ≤ q → calc_daily_flow q qd ifr = qd) ∧
    [(0.5 : ℚ), 1, 4, 6].map (fun x => calc_daily_flow x 4 0.9) = [0, 1, 4, 4] := by
  refine ⟨?_, ?_, ?_, by norm_num [calc_daily_flow]⟩ <;>
    · intros
      unfold calc_daily_flow
      split_ifs <;> linarith

/-- Witness for C7 at `qd = 4`, `ifr = 0.9`: the three branches evaluated at
`q = 0.5`, `q = 1` and `q = 6`. -/
theorem calc_daily_flow_cases_witness :
    calc_daily_flow 0.5 4 0.9 = 0 ∧ calc_daily_flow 1 4 0.9 = 1 ∧
      calc_daily_flow 6 4 0.9 = 4 :=
  ⟨(calc_daily_flow_cases 0.5 4 0.9).1 (by norm_num),
   (calc_daily_flow_cases 1 4 0.9).2.1 (by norm_num) (by norm_num),
   (calc_daily_flow_cases 6 4 0.9).2.2.1 (by norm_num) (by norm_num)⟩

/-- C9: when the fitted slope is exactly `0`, `ols_rc_q` takes the
`return 0` short-circuit for every intercept, stage `h` and datum offset `h0`;
the branch containing the division by `slope` is never reached. -/
theorem ols_rc_q_zero_slope (slope intercept h h0 : ℚ) (hs : slope = 0) :
    ols_rc_q slope intercept h h0 = RCOutcome.intZero := by
  subst hs
  unfold ols_rc_q
  simp

/-- Witness for C9 at `intercept = 1`, `h = 5`, `h0 = 2`. -/
theorem ols_rc_q_zero_slope_witness : ols_rc_q 0 1 5 2 = RCOutcome.intZero :=
  ols_rc_q_zero_slope 0 1 5 2 rfl

/-- C6: at `slope = 2`, `intercept = 1` and stage at or below the datum offset
`h0 = 1`, `ols_rc_q` does not produce the `None` of the `except ValueError`
handler: with `h = 0` (so `h - h0 = -1 < 0`) the call returns a propagated
`nan`, and with `h = 1` (so `h - h0 = 0`) it returns the collapsed
`exp(-inf)` float; neither is the defined no-value result `None`. -/
theorem ols_rc_q_nonpositive_log_arg :
    ols_rc_q 2 1 0 1 = RCOutcome.nanVal ∧
    ols_rc_q 2 1 1 1 = RCOutcome.limitVal ∧
    RCOutcome.nanVal ≠ RCOutcome.noneVal ∧
    RCOutcome.limitVal ≠ RCOutcome.noneVal :=
  ⟨by norm_num [ols_rc_q], by norm_num [ols_rc_q], by decide, by decide⟩

/-- C4 counterexample: `calc_daily_flow` is not idempotent for every
`q, qd, ifr`.  At `q = 10`, `qd = 3`, `ifr = 5` the first application returns
`3`, and reapplying the function to that output returns `0`, since `3 < 5`. -/
theorem calc_daily_flow_not_idempotent :
    ¬ calc_daily_flow (calc_daily_flow 10 3 5) 3 5 = calc_daily_flow 10 3 5 := by
  norm_num [calc_daily_flow]

/-- C4 as amended: for `0 ≤ ifr ≤ qd` the clipping function is idempotent:
`calc_daily_flow (calc_daily_flow q qd ifr) qd ifr = calc_daily_flow q qd ifr`
for every inflow `q`. -/
theorem calc_daily_flow_idem (q qd ifr : ℚ) (h0 : 0 ≤ ifr) (h1 : ifr ≤ qd) :
    calc_daily_flow (calc_daily_flow q qd ifr) qd ifr = calc_daily_flow q qd ifr := by
  unfold calc_daily_flow
  split_ifs <;> linarith

/-- Witness for the amended C4 at `q = 10`, `qd = 3`, `ifr = 2`. -/
theorem calc_daily_flow_idem_witness :
    calc_daily_flow (calc_daily_flow 10 3 2) 3 2 = calc_daily_flow 10 3 2 :=
  calc_daily_flow_idem 10 3 2 (by norm_num) (by norm_num)

/-- C3 counterexample: with `qd = 4 ≥ 0` and `ifr = 0.9 ≥ 0`,
`calc_daily_flow` is neither monotonic non-decreasing in `q` nor bounded by
`qd`: at `q = 4.8` it returns `4.8 > 4 = qd`, while at the larger inflow
`q = 5` it returns `4`. -/
theorem calc_daily_flow_not_monotone_not_bounded :
    calc_daily_flow 4.8 4 0.9 = 4.8 ∧ calc_daily_flow 5 4 0.9 = 4 ∧
    ¬ calc_daily_flow 4.8 4 0.9 ≤ calc_daily_flow 5 4 0.9 ∧
    ¬ calc_daily_flow 4.8 4 0.9 ≤ 4 := by norm_num [calc_daily_flow]

/-- C3 as amended: for `qd ≥ 0` and `ifr ≥ 0` the clipping function is
non-decreasing in `qd` and its result lies in `[0, qd + ifr]`; when
additionally `ifr = 0` it is also monotonic non-decreasing in `q` and its
result lies in `[0, qd]`. -/
theorem calc_daily_flow_monotone_bounds (q q' qd qd' ifr : ℚ)
    (hqd : 0 ≤ qd) (hifr : 0 ≤ ifr) :
    (qd ≤ qd' → calc_daily_flow q qd ifr ≤ calc_daily_flow q qd' ifr) ∧
    (0 ≤ calc_daily_flow q qd ifr ∧ calc_daily_flow q qd ifr ≤ qd + ifr) ∧
    (ifr = 0 → q ≤ q' → calc_daily_flow q qd ifr ≤ calc_daily_flow q' qd ifr) ∧
    (ifr = 0 → calc_daily_flow q qd ifr ≤ qd) := by
  refine ⟨?_, ⟨?_, ?_⟩, ?_, ?_⟩ <;>
    · intros
      unfold calc_daily_flow
      split_ifs <;> linarith

/-- Witness for the amended C3 at `q = 3`, `q' = 5`, `qd = 4`, `qd' = 6`,
`ifr = 0`. -/
theorem calc_daily_flow_monotone_bounds_witness :
    calc_daily_flow 3 4 0 ≤ calc_daily_flow 3 6 0 ∧
    (0 ≤ calc_daily_flow 3 4 0 ∧ calc_daily_flow 3 4 0 ≤ 4 + 0) ∧
    calc_daily_flow 3 4 0 ≤ calc_daily_flow 5 4 0 ∧
    calc_daily_flow 3 4 0 ≤ 4 :=
  ⟨(calc_daily_flow_monotone_bounds 3 5 4 6 0 (by norm_num) le_rfl).1 (by norm_num),
   (calc_daily_flow_monotone_bounds 3 5 4 6 0 (by norm_num) le_rfl).2.1,
   (calc_daily_flow_monotone_bounds 3 5 4 6 0 (by norm_num) le_rfl).2.2.1 rfl
     (by norm_num),
   (calc_daily_flow_monotone_bounds 3 5 4 6 0 (by norm_num) le_rfl).2.2.2 rfl⟩

/-- C1: the synthesized long-term series does not apply the fitted regression.
On the exact-linear concurrent record `concurrent_example`,
`scipy.stats.linregress` returns slope `0.15` and intercept `1`; the claim
would make the synthesized discharge at regional flow `1` equal to
`0.15 * 1 + 1 = 1.15`, but line 301 of the source applies the plot-cell
reassignments (`slope = 0.15`, `intercept = 0.2` from lines 282-283) and
produces `0.35`. -/
theorem lt_proj_q_ignores_fitted_model :
    (linregress concurrent_example).1 = 0.15 ∧
    (linregress concurrent_example).2 = 1 ∧
    lt_proj_q 1 = 0.35 ∧
    lt_proj_q 1 ≠
      (linregress concurrent_example).1 * 1 + (linregress concurrent_example).2 := by
  norm_num [linregress, concurrent_example, lt_proj_q, plot_slope, plot_intercept]

/-- C5: a scenario on which the annual revenue of the economics loop is `0`.
With every daily flow equal to `0.5` (below the instream flow requirement
`0.9` hard-coded at source line 473), design flow `4` and one year of record,
the summed daily energy is `0`, hence `ann_rev = 0`, while the project cost
`unit_cap_cost * qd = 1 * 4` is nonzero; the division `cost / ann_rev` at
source line 508 therefore has divisor `0` and no branch of the loop flags
this case. -/
theorem ann_rev_zero_scenario :
    ann_rev [0.5, 0.5, 0.5] 4 1 = 0 ∧ calc_cost 1 4 ≠ 0 := by
  norm_num [ann_rev, ann_energy, calc_energy_daily, calc_power, calc_daily_flow,
    calc_cost]

/-- Every `np.percentile` of a one-element series is that element: the sorted
list is `[c]`, the virtual index is `0`, and the interpolation is trivial. -/
theorem np_percentile_singleton (c p : ℚ) : np_percentile [c] p = c := by
  unfold np_percentile
  simp [List.insertionSort, List.orderedInsert]

/-- Every quantile value of the constant series `[c]` is `c`. -/
theorem fdc_q_vals_singleton (c : ℚ) (x : ℚ) (hx : x ∈ fdc_q_vals [c]) : x = c := by
  unfold fdc_q_vals at hx
  obtain ⟨p, hp, rfl⟩ := List.mem_map.1 hx
  exact np_percentile_singleton c p

/-- C2: the survivor set of the FDC filter is not governed by the `ifr`
argument.  For the constant series `[0.5]` with design flow `10` every one of
the 100 quantile values clips to `0.5`; with `ifr = 0.25` the claim predicts
all of them survive (`0.5 > 0.25`), yet the filter of source line 461 compares
against the literal `0.9` and discards them all. -/
theorem fdc_filter_threshold_hardcoded :
    fdc_flow_filtered [0.5] 10 = [] ∧
    ((fdc_q_vals [0.5]).map fun q => np_clip q 0 10).filter
        (fun q => (0.25 : ℚ) < q) ≠ [] := by
  have hclip : ∀ x ∈ (fdc_q_vals [0.5]).map fun q => np_clip q 0 10, x = 0.5 := by
    intro x hx
    obtain ⟨y, hy, rfl⟩ := List.mem_map.1 hx
    rw [fdc_q_vals_singleton 0.5 y hy]
    norm_num [np_clip]
  have hmem : (0.5 : ℚ) ∈ (fdc_q_vals [0.5]).map fun q => np_clip q 0 10 := by
    have hlen : fdc_percentiles.length = 100 := by
      simp [fdc_percentiles]
    have hne : fdc_percentiles ≠ [] := by
      intro h
      rw [h] at hlen
      simp at hlen
    obtain ⟨p, hp⟩ := List.exists_mem_of_ne_nil fdc_percentiles hne
    have h1 : np_percentile [0.5] p ∈ fdc_q_vals [0.5] :=
      List.mem_map.2 ⟨p, hp, rfl⟩
    refine List.mem_map.2 ⟨np_percentile [0.5] p, h1, ?_⟩
    rw [np_percentile_singleton]
    norm_num [np_clip]
  constructor
  · refine List.filter_eq_nil_iff.2 ?_
    intro a ha
    rw [hclip a ha]
    norm_num
  · exact List.ne_nil_of_mem (List.mem_filter.2 ⟨hmem, by norm_num⟩)

/-- Every element of the filtered FDC flow list is a clipped quantile value
and therefore lies in `[0, qd]` once `0 ≤ qd`. -/
theorem fdc_flow_filtered_mem_bounds (data : List ℚ) (qd : ℚ) (hqd : 0 ≤ qd)
    (x : ℚ) (hx : x ∈ fdc_flow_filtered data qd) : 0 ≤ x ∧ x ≤ qd := by
  have hx' := List.mem_of_mem_filter hx
  obtain ⟨y, hy, rfl⟩ := List.mem_map.1 hx'
  unfold np_clip
  exact ⟨le_min (le_max_right y 0) hqd, min_le_right _ qd⟩

/-- The filtered FDC flow list never holds more than the 100 quantile values. -/
theorem fdc_flow_filtered_length_le (data : List ℚ) (qd : ℚ) :
    (fdc_flow_filtered data qd).length ≤ 100 := by
  unfold fdc_flow_filtered
  calc ((((fdc_q_vals data).map fun q => np_clip q 0 qd).filter
        fun q => (0.9 : ℚ) < q)).length
      ≤ ((fdc_q_vals data).map fun q => np_clip q 0 qd).length :=
        List.length_filter_le _ _
    _ = (fdc_q_vals data).length := List.length_map _ _
    _ = fdc_percentiles.length := List.length_map _ _
    _ = 100 := by simp [fdc_percentiles]

/-- The mean effective flow of `calc_area_under_fdc` lies in `[0, qd]`. -/
theorem fdc_effective_flow_bounds (data : List ℚ) (qd : ℚ) (hqd : 0 ≤ qd) :
    0 ≤ fdc_effective_flow data qd ∧ fdc_effective_flow data qd ≤ qd := by
  have hb := fdc_flow_filtered_mem_bounds data qd hqd
  have hstep : fdc_d_step = 1 := by norm_num [fdc_d_step]
  have hmap : ((fdc_flow_filtered data qd).map fun q => q * fdc_d_step)
      = fdc_flow_filtered data qd := by
    rw [hstep]
    simp
  have hsum0 : 0 ≤ (fdc_flow_filtered data qd).sum :=
    List.sum_nonneg fun x hx => (hb x hx).1
  have hsum1 : (fdc_flow_filtered data qd).sum ≤ 100 * qd := by
    have hle := List.sum_le_card_nsmul (fdc_flow_filtered data qd) qd
      fun x hx => (hb x hx).2
    rw [nsmul_eq_mul] at hle
    have hlen : ((fdc_flow_filtered data qd).length : ℚ) ≤ 100 := by
      exact_mod_cast fdc_flow_filtered_length_le data qd
    calc (fdc_flow_filtered data qd).sum
        ≤ ((fdc_flow_filtered data qd).length : ℚ) * qd := hle
      _ ≤ 100 * qd := mul_le_mul_of_nonneg_right hlen hqd
  unfold fdc_effective_flow
  rw [hmap]
  constructor
  · exact div_nonneg hsum0 (by norm_num)
  · rw [div_le_iff₀ (by norm_num : (0 : ℚ) < 100)]
    linarith

/-- C8: for a nonempty discharge series and a design flow `qd ≥ 0`, the annual
energy computed by `calc_area_under_fdc` is non-negative and at most
`calc_power qd * 8760` in the same reporting unit (the source scales both by
`1/1E6`): full-capacity, full-time generation is an upper bound. -/
theorem calc_area_under_fdc_energy_bounds (data : List ℚ) (qd ifr : ℚ)
    (hd : data ≠ []) (hqd : 0 ≤ qd) :
    0 ≤ (calc_area_under_fdc data qd ifr).2 ∧
    (calc_area_under_fdc data qd ifr).2 ≤ calc_power qd * 8760 / 1000000 := by
  obtain ⟨h0, h1⟩ := fdc_effective_flow_bounds data qd hqd
  unfold calc_area_under_fdc fdc_energy calc_power
  constructor
  · nlinarith [h0]
  · nlinarith [h1]

/-- Witness for C8 on the one-day series `[1]` with `qd = 1`, `ifr = 0.9`. -/
theorem calc_area_under_fdc_energy_bounds_witness :
    0 ≤ (calc_area_under_fdc [1] 1 0.9).2 ∧
    (calc_area_under_fdc [1] 1 0.9).2 ≤ calc_power 1 * 8760 / 1000000 :=
  calc_area_under_fdc_energy_bounds [1] 1 0.9 (by simp) (by norm_num)
